import Mathlib

/-!
Shallow embedding of the ISBN validation and extraction utilities of
`src/js/isbn-utils.js` (exported functions `validateISBN13`, `isValidISBN10`,
`isValidISBN`, `extractISBN`) and of the textually duplicated class methods
in the scanner application file, together with theorems checking the
specification's claims about them.

Modelling conventions:
* JavaScript strings are Lean `String`s (lists of characters); all inputs in
  this code base are treated per character.
* `parseInt` applied to a single character is `jsParseIntChar`, returning
  `none` for NaN; a NaN poisons the running checksum sum, which is therefore
  an `Option Nat`, and `NaN % k === 0` is `false`.
* Out-of-range string indexing yields `undefined`, hence `none` (and
  `parseInt(undefined)` is NaN).
* Regular expressions are embedded as an explicit syntax tree (`RE`) together
  with a fuelled backtracking matcher implementing JavaScript semantics
  (leftmost match, greedy quantifiers with backtracking, ordered alternation,
  `matchAll` restarting at the end of the previous match).
* `toUpperCase` is modelled per character on ASCII letters (the JS function
  also maps some non-ASCII letters; no claim depends on those).
-/

namespace ISBN

/-- JavaScript whitespace class, the set matched by the backslash-s escape in
JS regular expressions and used by `replace(/[\s\-]/g, ...)` calls. -/
def isJsSpace (c : Char) : Bool :=
  c == ' ' || c == '\t' || c == '\n' || c == '\r' ||
  c.val == 11 || c.val == 12 || c.val == 0xa0 || c.val == 0x1680 ||
  (decide (0x2000 ≤ c.toNat) && decide (c.toNat ≤ 0x200a)) ||
  c.val == 0x2028 || c.val == 0x2029 || c.val == 0x202f || c.val == 0x205f ||
  c.val == 0x3000 || c.val == 0xfeff

/-- ASCII uppercasing of one character, modelling `String.prototype.toUpperCase`
on the ASCII range (rendered as an explicit table to keep proofs elementary). -/
def jsToUpper (c : Char) : Char :=
  match c with
  | 'a' => 'A' | 'b' => 'B' | 'c' => 'C' | 'd' => 'D' | 'e' => 'E' | 'f' => 'F'
  | 'g' => 'G' | 'h' => 'H' | 'i' => 'I' | 'j' => 'J' | 'k' => 'K' | 'l' => 'L'
  | 'm' => 'M' | 'n' => 'N' | 'o' => 'O' | 'p' => 'P' | 'q' => 'Q' | 'r' => 'R'
  | 's' => 'S' | 't' => 'T' | 'u' => 'U' | 'v' => 'V' | 'w' => 'W' | 'x' => 'X'
  | 'y' => 'Y' | 'z' => 'Z'
  | other => other

/-- JavaScript `parseInt` applied to a single character (or to `undefined` for
an out-of-range index, the `none` case): a decimal digit parses to its value,
anything else gives NaN, represented as `none`. -/
def jsParseIntChar : Option Char → Option Nat
  | some c => if c.isDigit then some (c.toNat - 48) else none
  | none => none

/-- One step of the checksum loops: add `f i digit` to the accumulator, where a
NaN accumulator or a NaN parse result poisons the sum. -/
def parseStep (l : List Char) (f : Nat → Nat → Nat) (acc : Option Nat) (i : Nat) :
    Option Nat :=
  match acc, jsParseIntChar (l.get? i) with
  | some a, some d => some (a + f i d)
  | _, _ => none

namespace IsbnUtils

/-- Embedding of `validateISBN13` from `src/js/isbn-utils.js`: sum the first 13
characters parsed as digits, weight 1 at even 0-based index and 3 at odd index,
and test the sum modulo 10. -/
def validateISBN13 (isbn : String) : Bool :=
  let sum : Option Nat :=
    (List.range 13).foldl
      (parseStep isbn.data fun i d => if i % 2 == 0 then d else d * 3) (some 0)
  match sum with
  | some s => s % 10 == 0
  | none => false

/-- Test of the anchored regular expression `^\d{9}[\dX]$`: nine digits then a
digit or an uppercase `X`. -/
def isbn10Shape (l : List Char) : Bool :=
  l.length == 10 &&
  (l.take 9).all Char.isDigit &&
  (match l.get? 9 with
   | some c => c.isDigit || c == 'X'
   | none => false)

/-- The cleaning step of `isValidISBN10`: `code.replace(/[\s\-]/g, '').toUpperCase()`. -/
def cleanForIsbn10 (code : String) : List Char :=
  (code.data.filter fun c => !(isJsSpace c || c == '-')).map jsToUpper

/-- Embedding of `isValidISBN10` from `src/js/isbn-utils.js`: strip whitespace
and hyphens, uppercase, require exactly 10 characters of shape `^\d{9}[\dX]$`,
then check the weighted sum (weights 10 down to 2, the last character counting
10 for `X`) modulo 11. -/
def isValidISBN10 (code : String) : Bool :=
  let cleaned := cleanForIsbn10 code
  if cleaned.length != 10 then false
  else if !(isbn10Shape cleaned) then false
  else
    let sum9 : Option Nat :=
      (List.range 9).foldl (parseStep cleaned fun i d => d * (10 - i)) (some 0)
    let sum : Option Nat :=
      match cleaned.get? 9, sum9 with
      | some c, some a =>
        if c == 'X' then some (a + 10)
        else
          match jsParseIntChar (some c) with
          | some d => some (a + d)
          | none => none
      | _, _ => none
    match sum with
    | some s => s % 11 == 0
    | none => false

/-- JavaScript `cleaned.startsWith('978') || cleaned.startsWith('979')`. -/
def starts978or979 (l : List Char) : Bool :=
  l.take 3 == ['9', '7', '8'] || l.take 3 == ['9', '7', '9']

/-- Embedding of `isValidISBN` from `src/js/isbn-utils.js`. The source first
tests `length === 13 && /^\d{13}$/` and inside it the 978/979 prefix (falling
through to the length-10 test, hence `false`, when the prefix test fails); the
nested conditionals are flattened here into an equivalent if-chain. -/
def isValidISBN (code : String) : Bool :=
  let cleaned := code.data.filter fun c => !(isJsSpace c || c == '-')
  if cleaned.length == 13 && cleaned.all Char.isDigit && starts978or979 cleaned then
    validateISBN13 (String.mk cleaned)
  else if cleaned.length == 10 then
    isValidISBN10 (String.mk cleaned)
  else
    false

end IsbnUtils

/-- Syntax of the regular expressions appearing in `extractISBN`, shallowly
embedded: character classes are predicates, quantifiers `?`, `*`, `{lo,hi}`
are greedy, `grp n` is the n-th capturing group, `bol`/`eol` are `^`/`$`. -/
inductive RE where
  | eps : RE
  | cls (p : Char → Bool) : RE
  | seq (a b : RE) : RE
  | alt (a b : RE) : RE
  | opt (a : RE) : RE
  | star (a : RE) : RE
  | rep (a : RE) (lo hi : Nat) : RE
  | grp (n : Nat) (a : RE) : RE
  | bol : RE
  | eol : RE

/-- Captured groups: group index together with start and end position. -/
abbrev Caps := List (Nat × Nat × Nat)

/-- Fuelled backtracking matcher in continuation style, implementing the
JavaScript semantics: ordered alternation, greedy quantifiers that backtrack,
and an empty-iteration cut inside quantified loops. `k` receives the position
after the current node and the captures recorded so far. -/
def reRun : Nat → RE → List Char → Nat → Caps →
    (Nat → Caps → Option (Nat × Caps)) → Option (Nat × Caps)
  | 0, _, _, _, _, _ => none
  | fuel + 1, re, s, i, cs, k =>
    match re with
    | .eps => k i cs
    | .cls p =>
      match s.get? i with
      | some c => if p c then k (i + 1) cs else none
      | none => none
    | .seq a b => reRun fuel a s i cs fun j cs2 => reRun fuel b s j cs2 k
    | .alt a b =>
      match reRun fuel a s i cs k with
      | some r => some r
      | none => reRun fuel b s i cs k
    | .opt a =>
      match reRun fuel a s i cs k with
      | some r => some r
      | none => k i cs
    | .star a =>
      match reRun fuel a s i cs
          (fun j cs2 => if j == i then none else reRun fuel (.star a) s j cs2 k) with
      | some r => some r
      | none => k i cs
    | .rep a lo hi =>
      match lo, hi with
      | _, 0 => k i cs
      | 0, hi2 + 1 =>
        match reRun fuel a s i cs
            (fun j cs2 => if j == i then none else reRun fuel (.rep a 0 hi2) s j cs2 k) with
        | some r => some r
        | none => k i cs
      | lo2 + 1, hi2 + 1 =>
        reRun fuel a s i cs fun j cs2 => reRun fuel (.rep a lo2 hi2) s j cs2 k
    | .grp n a => reRun fuel a s i cs fun j cs2 => k j ((n, i, j) :: cs2)
    | .bol => if i == 0 then k i cs else none
    | .eol => if i == s.length then k i cs else none

/-- Fuel bound for the matcher; ample for the nesting depth any of the embedded
patterns can reach on the given subject (the universal theorems below never
depend on the fuel being sufficient, only the concrete evaluations do). -/
def reFuel (s : List Char) : Nat := 8 * s.length + 800

/-- Leftmost match at or after `start`: the first start position whose match
attempt succeeds, returning start, end and captures. -/
def reFind (re : RE) (s : List Char) (start : Nat) : Option (Nat × Nat × Caps) :=
  (List.range (s.length + 1 - start)).findSome? fun d =>
    let q := start + d
    match reRun (reFuel s) re s q [] (fun j cs => some (j, cs)) with
    | some (j, cs) => some (q, j, cs)
    | none => none

/-- Worker for `matchAll`: collect successive leftmost matches, restarting at
the end of the previous match (advancing by one on an empty match, as the
JavaScript iterator does). -/
def matchAllAux : Nat → RE → List Char → Nat → List (Nat × Nat × Caps)
  | 0, _, _, _ => []
  | g + 1, re, s, p =>
    match reFind re s p with
    | none => []
    | some (st, en, cs) =>
      (st, en, cs) :: matchAllAux g re s (if en == st then en + 1 else en)

/-- All matches of a global regular expression over `s`, in order. -/
def matchAll (re : RE) (s : List Char) : List (Nat × Nat × Caps) :=
  matchAllAux (s.length + 1) re s 0

/-- Substring of `s` from position `a` (inclusive) to `b` (exclusive), the
meaning of `s.substring(a, b)` for `a ≤ b`. -/
def subList (s : List Char) (a b : Nat) : List Char := (s.drop a).take (b - a)

/-- Contents of capture group `n` of a match, the empty string when the group
did not participate (JavaScript `undefined`, turned into `''` by `join`). -/
def capList (s : List Char) (cs : Caps) (n : Nat) : List Char :=
  match cs.find? (fun e => e.1 == n) with
  | some e => subList s e.2.1 e.2.2
  | none => []

/-- JavaScript `match.slice(1).join('')` for a pattern with `n` capture
groups: concatenation of the captures of groups 1 to `n`. -/
def joinCaps (s : List Char) (cs : Caps) (n : Nat) : List Char :=
  ((List.range n).map fun g => capList s cs (g + 1)).flatten

/-- Literal character node. -/
def chr (c : Char) : RE := .cls fun x => x == c

/-- Case-insensitive literal character node (for patterns with the `i` flag). -/
def chrCI (c : Char) : RE := .cls fun x => jsToUpper x == jsToUpper c

/-- Concatenation of a list of nodes. -/
def cat : List RE → RE
  | [] => .eps
  | [r] => r
  | r :: rs => .seq r (cat rs)

/-- Character class `[-:\s]`. -/
def isSepColon (c : Char) : Bool := c == '-' || c == ':' || isJsSpace c

/-- Character class `[-\s.\d]` (also written `[\d\s\-\.]` in the source). -/
def isSepDotDigit (c : Char) : Bool :=
  c == '-' || isJsSpace c || c == '.' || c.isDigit

/-- Character class `[-\s.]`. -/
def isSepDot (c : Char) : Bool := c == '-' || isJsSpace c || c == '.'

/-- Character class `[X\d]` (equally `[\dX]`) under the `i` flag. -/
def isDigitOrXci (c : Char) : Bool := c.isDigit || c == 'X' || c == 'x'

/-- Character class `[\s\-\.oO]` of the noise-tolerant ISBN-13 pattern. -/
def isNoise (c : Char) : Bool :=
  isJsSpace c || c == '-' || c == '.' || c == 'o' || c == 'O'

/-- The literal `ISBN` under the `i` flag. -/
def reISBN : RE := cat [chrCI 'I', chrCI 'S', chrCI 'B', chrCI 'N']

/-- The fragment `97[89]`, first three characters of an ISBN-13. -/
def re97x : RE := cat [chr '9', chr '7', .cls fun c => c == '8' || c == '9']

/-- One digit, `\d`. -/
def reD : RE := .cls Char.isDigit

/-- The fragment `\d{n}`. -/
def dN (n : Nat) : RE := cat (List.replicate n reD)

/-- Maximal runs of decimal digits, the result of `text.match(/\d+/g) || []`
(structurally recursive: a digit either starts a new run or extends the run
that the following digit starts). -/
def digitRuns : List Char → List (List Char)
  | [] => []
  | c :: rest =>
    let tail := digitRuns rest
    if c.isDigit then
      match rest, tail with
      | d :: _, run :: runs => if d.isDigit then (c :: run) :: runs else [c] :: tail
      | _, _ => [c] :: tail
    else tail

/-- Stripping of separators, `replace(/[\s\-\.]/g, '')`. -/
def cleanSepDot (l : List Char) : List Char :=
  l.filter fun c => !(isJsSpace c || c == '-' || c == '.')

/-- OCR-confusion substitution table of `extractISBN` applied to one (already
uppercased) character, with newline collapsed to a space. -/
def normChar (c : Char) : Char :=
  if c == 'I' || c == 'l' || c == '|' then '1'
  else if c == 'O' || c == 'o' then '0'
  else if c == 'S' || c == 's' then '5'
  else if c == 'B' || c == 'b' then '8'
  else if c == 'Z' || c == 'z' then '2'
  else if c == '\n' then ' '
  else c

/-- Normalisation pass of `extractISBN`: uppercase, then the five character
substitutions, then newlines to spaces (the replacements are disjoint
character-to-character rewrites, so the chain acts per character). -/
def normalizeText (text : String) : String :=
  String.mk (text.data.map fun c => normChar (jsToUpper c))

namespace IsbnUtils

/-- First labelled pattern, `ISBN[-:\s]*(?:13)?[-:\s]*((?:97[89])[-\s.\d]{10,17})` with flags `gi`. -/
def isbnLabelP1 : RE :=
  cat [reISBN, .star (.cls isSepColon), .opt (cat [chr '1', chr '3']),
       .star (.cls isSepColon),
       .grp 1 (cat [re97x, .rep (.cls isSepDotDigit) 10 17])]

/-- Second labelled pattern, `ISBN[-:\s]*(?:10)?[-:\s]*(\d[-\s.\d]{9,12}[X\d])` with flags `gi`. -/
def isbnLabelP2 : RE :=
  cat [reISBN, .star (.cls isSepColon), .opt (cat [chr '1', chr '0']),
       .star (.cls isSepColon),
       .grp 1 (cat [reD, .rep (.cls isSepDotDigit) 9 12, .cls isDigitOrXci])]

/-- Third labelled pattern, `ISBN\s*[:=]?\s*(\d[\d\s\-\.]{9,16}[\dX])` with flags `gi`. -/
def isbnLabelP3 : RE :=
  cat [reISBN, .star (.cls isJsSpace), .opt (.cls fun c => c == ':' || c == '='),
       .star (.cls isJsSpace),
       .grp 1 (cat [reD, .rep (.cls isSepDotDigit) 9 16, .cls isDigitOrXci])]

/-- Strategy 1 of `extractISBN`: the three `isbnLabelPatterns` are matched over
the original text; each candidate is the first capture with separators
stripped, accepted when it has length 13 and passes `validateISBN13`, or
length 10 and passes `isValidISBN10`. -/
def strategy1 (text : String) : Option String :=
  let t := text.data
  [isbnLabelP1, isbnLabelP2, isbnLabelP3].findSome? fun pat =>
    (matchAll pat t).findSome? fun m =>
      let candidate := cleanSepDot (capList t m.2.2 1)
      if candidate.length == 13 && validateISBN13 (String.mk candidate) then
        some (String.mk candidate)
      else if candidate.length == 10 && isValidISBN10 (String.mk candidate) then
        some (String.mk candidate)
      else none

/-- First ISBN-13 pattern, `(97[89])[-\s.]?(\d)[-\s.]?(\d{2})[-\s.]?(\d{5})[-\s.]?(\d)` with flag `g`. -/
def isbn13P1 : RE :=
  cat [.grp 1 re97x, .opt (.cls isSepDot), .grp 2 reD, .opt (.cls isSepDot),
       .grp 3 (dN 2), .opt (.cls isSepDot), .grp 4 (dN 5), .opt (.cls isSepDot),
       .grp 5 reD]

/-- Second ISBN-13 pattern, `(97[89]\d{10})` with flag `g`. -/
def isbn13P2 : RE := .grp 1 (cat [re97x, dN 10])

/-- Third ISBN-13 pattern, `(?:^|[^\d])(97[89])(\d{10})(?:[^\d]|$)` with flag `g`. -/
def isbn13P3 : RE :=
  cat [.alt .bol (.cls fun c => !c.isDigit), .grp 1 re97x, .grp 2 (dN 10),
       .alt (.cls fun c => !c.isDigit) .eol]

/-- Fourth ISBN-13 pattern, `(97[89])` followed ten times by
`[\s\-\.oO]*(\d)`, with flag `g`. -/
def isbn13P4 : RE :=
  cat ([.grp 1 re97x] ++
    ((List.range 10).map fun g => RE.seq (.star (.cls isNoise)) (.grp (g + 2) reD)))

/-- Strategy 2 of `extractISBN`: the four `isbn13Patterns` are matched over the
normalised text; each candidate joins all capture groups, strips separators and
keeps only digits, accepted when exactly 13 digits validating as ISBN-13. -/
def strategy2 (normalizedText : String) : Option String :=
  let t := normalizedText.data
  [(isbn13P1, 5), (isbn13P2, 1), (isbn13P3, 2), (isbn13P4, 11)].findSome? fun pg =>
    (matchAll pg.1 t).findSome? fun m =>
      let candidate := cleanSepDot (joinCaps t m.2.2 pg.2)
      let digits := candidate.filter Char.isDigit
      if digits.length == 13 && validateISBN13 (String.mk digits) then
        some (String.mk digits)
      else none

/-- The digit-sequence pattern of strategy 3, `\d[\d\s]{11,20}\d` with flag `g`. -/
def digitSeqRE : RE :=
  cat [reD, .rep (.cls fun c => c.isDigit || isJsSpace c) 11 20, reD]

/-- Strategy 3 of `extractISBN`: collapse every character other than digits and
whitespace to a space, collect the matches of `\d[\d\s]{11,20}\d`, strip the
whitespace of each, and slide a 13-character window looking for a validated
`978`/`979`-prefixed ISBN-13. -/
def strategy3 (normalizedText : String) : Option String :=
  let replaced := normalizedText.data.map fun c =>
    if c.isDigit || isJsSpace c then c else ' '
  let seqs := (matchAll digitSeqRE replaced).map fun m => subList replaced m.1 m.2.1
  seqs.findSome? fun sq =>
    let digits := sq.filter fun c => !(isJsSpace c)
    if digits.length ≥ 13 then
      (List.range (digits.length + 1 - 13)).findSome? fun i =>
        let candidate := subList digits i (i + 13)
        if starts978or979 candidate && validateISBN13 (String.mk candidate) then
          some (String.mk candidate)
        else none
    else none

/-- First ISBN-10 pattern, `(\d)[-\s.]?(\d{2})[-\s.]?(\d{5})[-\s.]?([\dX])` with flags `gi`. -/
def isbn10P1 : RE :=
  cat [.grp 1 reD, .opt (.cls isSepDot), .grp 2 (dN 2), .opt (.cls isSepDot),
       .grp 3 (dN 5), .opt (.cls isSepDot), .grp 4 (.cls isDigitOrXci)]

/-- Second ISBN-10 pattern, `(\d{9}[\dX])` with flags `gi`. -/
def isbn10P2 : RE := .grp 1 (cat [dN 9, .cls isDigitOrXci])

/-- Third ISBN-10 pattern, `(?:^|[^\dX])(\d{9})([\dX])(?:[^\dX]|$)` with flags `gi`. -/
def isbn10P3 : RE :=
  cat [.alt .bol (.cls fun c => !isDigitOrXci c), .grp 1 (dN 9),
       .grp 2 (.cls isDigitOrXci), .alt (.cls fun c => !isDigitOrXci c) .eol]

/-- Strategy 4 of `extractISBN`: the three `isbn10Patterns` are matched over the
uppercased original text; each candidate joins the capture groups, strips
separators, uppercases, and keeps only digits and `X`, accepted when exactly 10
characters validating as ISBN-10. -/
def strategy4 (text : String) : Option String :=
  let up := text.data.map jsToUpper
  [(isbn10P1, 4), (isbn10P2, 1), (isbn10P3, 2)].findSome? fun pg =>
    (matchAll pg.1 up).findSome? fun m =>
      let candidate := (cleanSepDot (joinCaps up m.2.2 pg.2)).map jsToUpper
      let clean := candidate.filter fun c => c.isDigit || c == 'X'
      if clean.length == 10 && isValidISBN10 (String.mk clean) then
        some (String.mk clean)
      else none

/-- Strategy 5 of `extractISBN`: concatenate all maximal digit runs of the
original text, then slide first a 13-character window looking for a validated
`978`/`979`-prefixed ISBN-13, then a 10-character window looking for a
validated ISBN-10. -/
def strategy5 (text : String) : Option String :=
  let concatenated := (digitRuns text.data).flatten
  match
    (List.range (concatenated.length + 1 - 13)).findSome? fun i =>
      let candidate := subList concatenated i (i + 13)
      if starts978or979 candidate && validateISBN13 (String.mk candidate) then
        some (String.mk candidate)
      else none
  with
  | some r => some r
  | none =>
    (List.range (concatenated.length + 1 - 10)).findSome? fun i =>
      let candidate := subList concatenated i (i + 10)
      if isValidISBN10 (String.mk candidate) then some (String.mk candidate)
      else none

/-- Strategy 6 of `extractISBN`: strip every non-digit from the normalised text
and, when at least 13 digits remain, slide a 13-character window looking for a
validated `978`/`979`-prefixed ISBN-13. -/
def strategy6 (normalizedText : String) : Option String :=
  let justDigits := normalizedText.data.filter Char.isDigit
  if justDigits.length ≥ 13 then
    (List.range (justDigits.length + 1 - 13)).findSome? fun i =>
      let candidate := subList justDigits i (i + 13)
      if starts978or979 candidate && validateISBN13 (String.mk candidate) then
        some (String.mk candidate)
      else none
  else none

/-- Embedding of `extractISBN` from `src/js/isbn-utils.js`: normalise once,
then try the six strategies in order, returning the first validated candidate,
or `none` when every strategy fails. -/
def extractISBN (text : String) : Option String :=
  let normalizedText := normalizeText text
  (strategy1 text).orElse fun _ =>
  (strategy2 normalizedText).orElse fun _ =>
  (strategy3 normalizedText).orElse fun _ =>
  (strategy4 text).orElse fun _ =>
  (strategy5 text).orElse fun _ =>
  strategy6 normalizedText

end IsbnUtils


/-! Embedding of the textually identical class methods `extractISBN`, `isValidISBN`, `validateISBN13` and `isValidISBN10` of the scanner application class in `src/unnamed/part_001` (lines 587 to 766). -/

namespace ScannerApp


/-- Embedding of `validateISBN13` from the scanner class of `src/unnamed/part_001`: sum the first 13
characters parsed as digits, weight 1 at even 0-based index and 3 at odd index,
and test the sum modulo 10. -/
def validateISBN13 (isbn : String) : Bool :=
  let sum : Option Nat :=
    (List.range 13).foldl
      (parseStep isbn.data fun i d => if i % 2 == 0 then d else d * 3) (some 0)
  match sum with
  | some s => s % 10 == 0
  | none => false

/-- Test of the anchored regular expression `^\d{9}[\dX]$`: nine digits then a
digit or an uppercase `X`. -/
def isbn10Shape (l : List Char) : Bool :=
  l.length == 10 &&
  (l.take 9).all Char.isDigit &&
  (match l.get? 9 with
   | some c => c.isDigit || c == 'X'
   | none => false)

/-- The cleaning step of `isValidISBN10`: `code.replace(/[\s\-]/g, '').toUpperCase()`. -/
def cleanForIsbn10 (code : String) : List Char :=
  (code.data.filter fun c => !(isJsSpace c || c == '-')).map jsToUpper

/-- Embedding of `isValidISBN10` from the scanner class of `src/unnamed/part_001`: strip whitespace
and hyphens, uppercase, require exactly 10 characters of shape `^\d{9}[\dX]$`,
then check the weighted sum (weights 10 down to 2, the last character counting
10 for `X`) modulo 11. -/
def isValidISBN10 (code : String) : Bool :=
  let cleaned := cleanForIsbn10 code
  if cleaned.length != 10 then false
  else if !(isbn10Shape cleaned) then false
  else
    let sum9 : Option Nat :=
      (List.range 9).foldl (parseStep cleaned fun i d => d * (10 - i)) (some 0)
    let sum : Option Nat :=
      match cleaned.get? 9, sum9 with
      | some c, some a =>
        if c == 'X' then some (a + 10)
        else
          match jsParseIntChar (some c) with
          | some d => some (a + d)
          | none => none
      | _, _ => none
    match sum with
    | some s => s % 11 == 0
    | none => false

/-- JavaScript `cleaned.startsWith('978') || cleaned.startsWith('979')`. -/
def starts978or979 (l : List Char) : Bool :=
  l.take 3 == ['9', '7', '8'] || l.take 3 == ['9', '7', '9']

/-- Embedding of `isValidISBN` from the scanner class of `src/unnamed/part_001`. The source first
tests `length === 13 && /^\d{13}$/` and inside it the 978/979 prefix (falling
through to the length-10 test, hence `false`, when the prefix test fails); the
nested conditionals are flattened here into an equivalent if-chain. -/
def isValidISBN (code : String) : Bool :=
  let cleaned := code.data.filter fun c => !(isJsSpace c || c == '-')
  if cleaned.length == 13 && cleaned.all Char.isDigit && starts978or979 cleaned then
    validateISBN13 (String.mk cleaned)
  else if cleaned.length == 10 then
    isValidISBN10 (String.mk cleaned)
  else
    false


/-- First labelled pattern, `ISBN[-:\s]*(?:13)?[-:\s]*((?:97[89])[-\s.\d]{10,17})` with flags `gi`. -/
def isbnLabelP1 : RE :=
  cat [reISBN, .star (.cls isSepColon), .opt (cat [chr '1', chr '3']),
       .star (.cls isSepColon),
       .grp 1 (cat [re97x, .rep (.cls isSepDotDigit) 10 17])]

/-- Second labelled pattern, `ISBN[-:\s]*(?:10)?[-:\s]*(\d[-\s.\d]{9,12}[X\d])` with flags `gi`. -/
def isbnLabelP2 : RE :=
  cat [reISBN, .star (.cls isSepColon), .opt (cat [chr '1', chr '0']),
       .star (.cls isSepColon),
       .grp 1 (cat [reD, .rep (.cls isSepDotDigit) 9 12, .cls isDigitOrXci])]

/-- Third labelled pattern, `ISBN\s*[:=]?\s*(\d[\d\s\-\.]{9,16}[\dX])` with flags `gi`. -/
def isbnLabelP3 : RE :=
  cat [reISBN, .star (.cls isJsSpace), .opt (.cls fun c => c == ':' || c == '='),
       .star (.cls isJsSpace),
       .grp 1 (cat [reD, .rep (.cls isSepDotDigit) 9 16, .cls isDigitOrXci])]

/-- Strategy 1 of `extractISBN`: the three `isbnLabelPatterns` are matched over
the original text; each candidate is the first capture with separators
stripped, accepted when it has length 13 and passes `validateISBN13`, or
length 10 and passes `isValidISBN10`. -/
def strategy1 (text : String) : Option String :=
  let t := text.data
  [isbnLabelP1, isbnLabelP2, isbnLabelP3].findSome? fun pat =>
    (matchAll pat t).findSome? fun m =>
      let candidate := cleanSepDot (capList t m.2.2 1)
      if candidate.length == 13 && validateISBN13 (String.mk candidate) then
        some (String.mk candidate)
      else if candidate.length == 10 && isValidISBN10 (String.mk candidate) then
        some (String.mk candidate)
      else none

/-- First ISBN-13 pattern, `(97[89])[-\s.]?(\d)[-\s.]?(\d{2})[-\s.]?(\d{5})[-\s.]?(\d)` with flag `g`. -/
def isbn13P1 : RE :=
  cat [.grp 1 re97x, .opt (.cls isSepDot), .grp 2 reD, .opt (.cls isSepDot),
       .grp 3 (dN 2), .opt (.cls isSepDot), .grp 4 (dN 5), .opt (.cls isSepDot),
       .grp 5 reD]

/-- Second ISBN-13 pattern, `(97[89]\d{10})` with flag `g`. -/
def isbn13P2 : RE := .grp 1 (cat [re97x, dN 10])

/-- Third ISBN-13 pattern, `(?:^|[^\d])(97[89])(\d{10})(?:[^\d]|$)` with flag `g`. -/
def isbn13P3 : RE :=
  cat [.alt .bol (.cls fun c => !c.isDigit), .grp 1 re97x, .grp 2 (dN 10),
       .alt (.cls fun c => !c.isDigit) .eol]

/-- Fourth ISBN-13 pattern, `(97[89])` followed ten times by
`[\s\-\.oO]*(\d)`, with flag `g`. -/
def isbn13P4 : RE :=
  cat ([.grp 1 re97x] ++
    ((List.range 10).map fun g => RE.seq (.star (.cls isNoise)) (.grp (g + 2) reD)))

/-- Strategy 2 of `extractISBN`: the four `isbn13Patterns` are matched over the
normalised text; each candidate joins all capture groups, strips separators and
keeps only digits, accepted when exactly 13 digits validating as ISBN-13. -/
def strategy2 (normalizedText : String) : Option String :=
  let t := normalizedText.data
  [(isbn13P1, 5), (isbn13P2, 1), (isbn13P3, 2), (isbn13P4, 11)].findSome? fun pg =>
    (matchAll pg.1 t).findSome? fun m =>
      let candidate := cleanSepDot (joinCaps t m.2.2 pg.2)
      let digits := candidate.filter Char.isDigit
      if digits.length == 13 && validateISBN13 (String.mk digits) then
        some (String.mk digits)
      else none

/-- The digit-sequence pattern of strategy 3, `\d[\d\s]{11,20}\d` with flag `g`. -/
def digitSeqRE : RE :=
  cat [reD, .rep (.cls fun c => c.isDigit || isJsSpace c) 11 20, reD]

/-- Strategy 3 of `extractISBN`: collapse every character other than digits and
whitespace to a space, collect the matches of `\d[\d\s]{11,20}\d`, strip the
whitespace of each, and slide a 13-character window looking for a validated
`978`/`979`-prefixed ISBN-13. -/
def strategy3 (normalizedText : String) : Option String :=
  let replaced := normalizedText.data.map fun c =>
    if c.isDigit || isJsSpace c then c else ' '
  let seqs := (matchAll digitSeqRE replaced).map fun m => subList replaced m.1 m.2.1
  seqs.findSome? fun sq =>
    let digits := sq.filter fun c => !(isJsSpace c)
    if digits.length ≥ 13 then
      (List.range (digits.length + 1 - 13)).findSome? fun i =>
        let candidate := subList digits i (i + 13)
        if starts978or979 candidate && validateISBN13 (String.mk candidate) then
          some (String.mk candidate)
        else none
    else none

/-- First ISBN-10 pattern, `(\d)[-\s.]?(\d{2})[-\s.]?(\d{5})[-\s.]?([\dX])` with flags `gi`. -/
def isbn10P1 : RE :=
  cat [.grp 1 reD, .opt (.cls isSepDot), .grp 2 (dN 2), .opt (.cls isSepDot),
       .grp 3 (dN 5), .opt (.cls isSepDot), .grp 4 (.cls isDigitOrXci)]

/-- Second ISBN-10 pattern, `(\d{9}[\dX])` with flags `gi`. -/
def isbn10P2 : RE := .grp 1 (cat [dN 9, .cls isDigitOrXci])

/-- Third ISBN-10 pattern, `(?:^|[^\dX])(\d{9})([\dX])(?:[^\dX]|$)` with flags `gi`. -/
def isbn10P3 : RE :=
  cat [.alt .bol (.cls fun c => !isDigitOrXci c), .grp 1 (dN 9),
       .grp 2 (.cls isDigitOrXci), .alt (.cls fun c => !isDigitOrXci c) .eol]

/-- Strategy 4 of `extractISBN`: the three `isbn10Patterns` are matched over the
uppercased original text; each candidate joins the capture groups, strips
separators, uppercases, and keeps only digits and `X`, accepted when exactly 10
characters validating as ISBN-10. -/
def strategy4 (text : String) : Option String :=
  let up := text.data.map jsToUpper
  [(isbn10P1, 4), (isbn10P2, 1), (isbn10P3, 2)].findSome? fun pg =>
    (matchAll pg.1 up).findSome? fun m =>
      let candidate := (cleanSepDot (joinCaps up m.2.2 pg.2)).map jsToUpper
      let clean := candidate.filter fun c => c.isDigit || c == 'X'
      if clean.length == 10 && isValidISBN10 (String.mk clean) then
        some (String.mk clean)
      else none

/-- Strategy 5 of `extractISBN`: concatenate all maximal digit runs of the
original text, then slide first a 13-character window looking for a validated
`978`/`979`-prefixed ISBN-13, then a 10-character window looking for a
validated ISBN-10. -/
def strategy5 (text : String) : Option String :=
  let concatenated := (digitRuns text.data).flatten
  match
    (List.range (concatenated.length + 1 - 13)).findSome? fun i =>
      let candidate := subList concatenated i (i + 13)
      if starts978or979 candidate && validateISBN13 (String.mk candidate) then
        some (String.mk candidate)
      else none
  with
  | some r => some r
  | none =>
    (List.range (concatenated.length + 1 - 10)).findSome? fun i =>
      let candidate := subList concatenated i (i + 10)
      if isValidISBN10 (String.mk candidate) then some (String.mk candidate)
      else none

/-- Strategy 6 of `extractISBN`: strip every non-digit from the normalised text
and, when at least 13 digits remain, slide a 13-character window looking for a
validated `978`/`979`-prefixed ISBN-13. -/
def strategy6 (normalizedText : String) : Option String :=
  let justDigits := normalizedText.data.filter Char.isDigit
  if justDigits.length ≥ 13 then
    (List.range (justDigits.length + 1 - 13)).findSome? fun i =>
      let candidate := subList justDigits i (i + 13)
      if starts978or979 candidate && validateISBN13 (String.mk candidate) then
        some (String.mk candidate)
      else none
  else none

/-- Embedding of `extractISBN` from the scanner class of `src/unnamed/part_001`: normalise once,
then try the six strategies in order, returning the first validated candidate,
or `none` when every strategy fails. -/
def extractISBN (text : String) : Option String :=
  let normalizedText := normalizeText text
  (strategy1 text).orElse fun _ =>
  (strategy2 normalizedText).orElse fun _ =>
  (strategy3 normalizedText).orElse fun _ =>
  (strategy4 text).orElse fun _ =>
  (strategy5 text).orElse fun _ =>
  strategy6 normalizedText


end ScannerApp

/-- Digit value of the character at index `i`, with junk value 0 out of range;
used only to state specification-side weighted sums. -/
def digitAt (l : List Char) (i : Nat) : Nat :=
  match l.get? i with
  | some c => c.toNat - 48
  | none => 0

/-- Specification-side ISBN-13 weighted sum: digit at even 0-based index has
weight 1, digit at odd index has weight 3. -/
def weightedSum13 (l : List Char) : Nat :=
  ((List.range 13).map fun i => if i % 2 == 0 then digitAt l i else 3 * digitAt l i).sum

/-- Specification-side ISBN-10 weighted sum: digit at position `i` (0-based,
`i` in 0..8) has weight `10 - i`; the tenth character contributes 10 if it is
`X`, else its numeric value. -/
def weightedSum10 (l : List Char) : Nat :=
  ((List.range 9).map fun i => digitAt l i * (10 - i)).sum +
  (if l.get? 9 == some 'X' then 10 else digitAt l 9)

/-- Window predicate of the claim about the mangled-text fallback: some
13-character window of `l` starts with 978 or 979 and passes the ISBN-13
checksum. -/
def hasWindow13 (l : List Char) : Bool :=
  (List.range (l.length + 1 - 13)).any fun i =>
    IsbnUtils.starts978or979 (subList l i (i + 13)) &&
    IsbnUtils.validateISBN13 (String.mk (subList l i (i + 13)))

/-- Result invariant actually enforced by every return site of `extractISBN`:
a returned string is a 10-character string accepted by the ISBN-10 validator,
or a string of exactly 13 digits passing the ISBN-13 checksum. -/
def goodResult (s : String) : Prop :=
  (s.length = 10 ∧ IsbnUtils.isValidISBN10 s = true) ∨
  (s.length = 13 ∧ s.data.all Char.isDigit = true ∧ IsbnUtils.validateISBN13 s = true)

/-! ## Helper lemmas -/

theorem orElse_some_eq {α : Type} (a : α) (f : Unit → Option α) :
    (some a).orElse f = some a := rfl

theorem orElse_none_eq {α : Type} (f : Unit → Option α) :
    (Option.none).orElse f = f () := rfl

theorem exists_of_findSome {α β : Type} {f : α → Option β} {l : List α} {b : β}
    (h : l.findSome? f = some b) : ∃ a ∈ l, f a = some b := by
  induction l with
  | nil => simp [List.findSome?] at h
  | cons x xs ih =>
    rw [List.findSome?_cons] at h
    cases hf : f x with
    | some r =>
      rw [hf] at h
      exact ⟨x, by simp, by rw [hf]; exact h⟩
    | none =>
      rw [hf] at h
      obtain ⟨a, ha, hfa⟩ := ih h
      exact ⟨a, by simp [ha], hfa⟩

theorem findSome_if_isSome {α β : Type} (xs : List α) (p : α → Bool) (g : α → β)
    (h : xs.any p = true) :
    (xs.findSome? fun a => if p a then some (g a) else none).isSome = true := by
  induction xs with
  | nil => simp at h
  | cons x xs ih =>
    rw [List.findSome?_cons]
    by_cases hp : p x = true
    · simp [hp]
    · have hb : p x = false := by revert hp; cases p x <;> simp
      have hx : (if p x = true then some (g x) else none) = none := by simp [hb]
      rw [hx]
      exact ih (by simpa [hb] using h)

theorem jsParseIntChar_isSome_iff (oc : Option Char) :
    (jsParseIntChar oc).isSome = true ↔ ∃ c, oc = some c ∧ c.isDigit = true := by
  cases oc with
  | none => simp [jsParseIntChar]
  | some c => by_cases h : c.isDigit <;> simp [jsParseIntChar, h]

theorem foldl_parseStep_none (l : List Char) (f : Nat → Nat → Nat) (xs : List Nat) :
    xs.foldl (parseStep l f) none = none := by
  induction xs with
  | nil => rfl
  | cons x xs ih =>
    have hx : parseStep l f none x = none := by
      unfold parseStep
      cases jsParseIntChar (l.get? x) <;> rfl
    rw [List.foldl_cons, hx, ih]

theorem foldl_parseStep_eq (l : List Char) (f : Nat → Nat → Nat) (xs : List Nat)
    (a : Nat) (h : ∀ i ∈ xs, ∃ c, l.get? i = some c ∧ c.isDigit = true) :
    xs.foldl (parseStep l f) (some a) =
      some (a + ((xs.map fun i => f i (digitAt l i)).sum)) := by
  induction xs generalizing a with
  | nil => simp
  | cons x xs ih =>
    obtain ⟨c, hc, hd⟩ := h x (by simp)
    have hp : jsParseIntChar (l.get? x) = some (digitAt l x) := by
      unfold digitAt
      rw [hc]
      simp [jsParseIntChar, hd]
    have hstep : parseStep l f (some a) x = some (a + f x (digitAt l x)) := by
      unfold parseStep
      rw [hp]
    rw [List.foldl_cons, hstep, ih (a + f x (digitAt l x)) fun i hi => h i (by simp [hi])]
    simp only [List.map_cons, List.sum_cons]
    congr 1
    omega

theorem digits_of_foldl_parseStep (l : List Char) (f : Nat → Nat → Nat) (xs : List Nat)
    (a s : Nat) (h : xs.foldl (parseStep l f) (some a) = some s) :
    ∀ i ∈ xs, ∃ c, l.get? i = some c ∧ c.isDigit = true := by
  induction xs generalizing a with
  | nil => simp
  | cons x xs ih =>
    rw [List.foldl_cons] at h
    cases hp : jsParseIntChar (l.get? x) with
    | none =>
      have hx : parseStep l f (some a) x = none := by
        unfold parseStep
        rw [hp]
      rw [hx, foldl_parseStep_none] at h
      simp at h
    | some d =>
      have hx : parseStep l f (some a) x = some (a + f x d) := by
        unfold parseStep
        rw [hp]
      rw [hx] at h
      intro i hi
      rcases List.mem_cons.mp hi with rfl | hi2
      · exact (jsParseIntChar_isSome_iff (l.get? i)).mp (by rw [hp]; rfl)
      · exact ih (a + f x d) h i hi2

theorem window_length (l : List Char) (w i : Nat)
    (hi : i ∈ List.range (l.length + 1 - w)) :
    (subList l i (i + w)).length = w := by
  have hr := List.mem_range.mp hi
  simp only [subList, List.length_take, List.length_drop]
  omega

/-! ## Characterisation of the checksum validators -/

theorem validateISBN13_def (s : String) :
    IsbnUtils.validateISBN13 s =
      match (List.range 13).foldl
          (parseStep s.data fun i d => if i % 2 == 0 then d else d * 3) (some 0) with
      | some v => v % 10 == 0
      | none => false := rfl

theorem validateISBN13_true_digits {s : String}
    (h : IsbnUtils.validateISBN13 s = true) :
    ∀ i < 13, ∃ c, s.data.get? i = some c ∧ c.isDigit = true := by
  rw [validateISBN13_def] at h
  cases hs : (List.range 13).foldl
      (parseStep s.data fun i d => if i % 2 == 0 then d else d * 3) (some 0) with
  | none => rw [hs] at h; simp at h
  | some v =>
    intro i hi
    exact digits_of_foldl_parseStep s.data _ _ 0 v hs i (List.mem_range.mpr hi)

theorem validateISBN13_eq_spec (s : String)
    (h : ∀ i < 13, ∃ c, s.data.get? i = some c ∧ c.isDigit = true) :
    IsbnUtils.validateISBN13 s = (weightedSum13 s.data % 10 == 0) := by
  rw [validateISBN13_def,
    foldl_parseStep_eq s.data _ _ 0 fun i hi => h i (List.mem_range.mp hi)]
  show ((0 + ((List.range 13).map fun i =>
      if i % 2 == 0 then digitAt s.data i else digitAt s.data i * 3).sum) % 10 == 0)
    = (weightedSum13 s.data % 10 == 0)
  rw [Nat.zero_add]
  have hmap : ((List.range 13).map fun i =>
      if i % 2 == 0 then digitAt s.data i else digitAt s.data i * 3)
      = ((List.range 13).map fun i =>
      if i % 2 == 0 then digitAt s.data i else 3 * digitAt s.data i) := by
    apply List.map_congr_left
    intro i _
    cases hip : (i % 2 == 0) <;> simp [Nat.mul_comm]
  rw [hmap]
  rfl

theorem all_digits_of_validate13 (l : List Char) (hlen : l.length = 13)
    (hv : IsbnUtils.validateISBN13 (String.mk l) = true) :
    l.all Char.isDigit = true := by
  rw [List.all_eq_true]
  intro c hc
  obtain ⟨i, hig⟩ := List.mem_iff_get?.mp hc
  have hi13 : i < 13 := by
    obtain ⟨hlt, _⟩ := List.get?_eq_some.mp hig
    omega
  obtain ⟨c2, hc2, hd⟩ := validateISBN13_true_digits hv i hi13
  have : c = c2 := by
    rw [show (String.mk l).data = l from rfl] at hc2
    rw [hig] at hc2
    exact Option.some.inj hc2
  rw [this]
  exact hd

theorem isValidISBN10_eq_spec (code : String) :
    IsbnUtils.isValidISBN10 code =
      (IsbnUtils.isbn10Shape (IsbnUtils.cleanForIsbn10 code) &&
        (weightedSum10 (IsbnUtils.cleanForIsbn10 code) % 11 == 0)) := by
  simp only [IsbnUtils.isValidISBN10]
  set cleaned := IsbnUtils.cleanForIsbn10 code with hcl
  by_cases hsh : IsbnUtils.isbn10Shape cleaned = true
  case neg =>
    have hshf : IsbnUtils.isbn10Shape cleaned = false := by
      revert hsh; cases IsbnUtils.isbn10Shape cleaned <;> simp
    rw [hshf]
    simp only [Bool.false_and]
    by_cases hlen : cleaned.length = 10
    · rw [show (cleaned.length != 10) = false from by simp [hlen]]
      simp [hshf]
    · rw [show (cleaned.length != 10) = true from by simp [hlen]]
      simp
  case pos =>
    have hshB := hsh
    unfold IsbnUtils.isbn10Shape at hshB
    have htmp := (Bool.and_eq_true _ _).mp hshB
    have hab := (Bool.and_eq_true _ _).mp htmp.1
    have hlen : cleaned.length = 10 := by simpa using hab.1
    have hall := hab.2
    have hlast := htmp.2
    have hdig : ∀ i ∈ List.range 9, ∃ c, cleaned.get? i = some c ∧ c.isDigit = true := by
      intro i hir
      have hi9 : i < 9 := List.mem_range.mp hir
      have hilen : i < cleaned.length := by omega
      have hc := List.get?_eq_get hilen
      refine ⟨cleaned.get ⟨i, hilen⟩, hc, ?_⟩
      apply List.all_eq_true.mp hall
      apply List.mem_iff_get?.mpr
      exact ⟨i, by rw [List.get?_take hi9]; exact hc⟩
    rw [show (cleaned.length != 10) = false from by simp [hlen]]
    rw [show (!IsbnUtils.isbn10Shape cleaned) = false from by simp [hsh]]
    simp only [Bool.false_eq_true, if_false]
    rw [foldl_parseStep_eq cleaned _ _ 0 hdig]
    cases hg9 : cleaned.get? 9 with
    | none => rw [hg9] at hlast; simp at hlast
    | some c9 =>
      rw [hg9] at hlast
      simp only [] at hlast
      have hg9x : cleaned[9]? = some c9 := by
        rw [← List.get?_eq_getElem?]
        exact hg9
      by_cases hX : c9 = 'X'
      · subst hX
        simp [hsh, weightedSum10, hg9, hg9x, Nat.zero_add]
      · have hxf : (c9 == 'X') = false := by simp [hX]
        have hxf2 : ((some c9 : Option Char) == some 'X') = false := by simp [hX]
        have hd9 : c9.isDigit = true := by
          rcases (Bool.or_eq_true _ _).mp hlast with h | h
          · exact h
          · rw [h] at hxf; simp at hxf
        simp [hsh, weightedSum10, hg9, hg9x, hxf, hxf2, hd9, jsParseIntChar,
          digitAt, hX, Nat.zero_add]

/-! ## Result invariant of the six strategies -/

theorem window13_good {digits : List Char} {s : String}
    (h : ((List.range (digits.length + 1 - 13)).findSome? fun i =>
      if IsbnUtils.starts978or979 (subList digits i (i + 13)) &&
          IsbnUtils.validateISBN13 (String.mk (subList digits i (i + 13))) then
        some (String.mk (subList digits i (i + 13)))
      else none) = some s) :
    goodResult s := by
  obtain ⟨i, hir, hfi⟩ := exists_of_findSome h
  by_cases hg : (IsbnUtils.starts978or979 (subList digits i (i + 13)) &&
      IsbnUtils.validateISBN13 (String.mk (subList digits i (i + 13)))) = true
  · rw [if_pos hg] at hfi
    obtain rfl := Option.some.inj hfi
    right
    have hv := ((Bool.and_eq_true _ _).mp hg).2
    have hlen13 : (subList digits i (i + 13)).length = 13 := window_length digits 13 i hir
    exact ⟨hlen13, all_digits_of_validate13 _ hlen13 hv, hv⟩
  · rw [if_neg hg] at hfi
    simp at hfi

theorem window10_good {digits : List Char} {s : String}
    (h : ((List.range (digits.length + 1 - 10)).findSome? fun i =>
      if IsbnUtils.isValidISBN10 (String.mk (subList digits i (i + 10))) then
        some (String.mk (subList digits i (i + 10)))
      else none) = some s) :
    goodResult s := by
  obtain ⟨i, hir, hfi⟩ := exists_of_findSome h
  by_cases hg : IsbnUtils.isValidISBN10 (String.mk (subList digits i (i + 10))) = true
  · rw [if_pos hg] at hfi
    obtain rfl := Option.some.inj hfi
    left
    exact ⟨window_length digits 10 i hir, hg⟩
  · rw [if_neg hg] at hfi
    simp at hfi

theorem strategy1_good {t s : String} (h : IsbnUtils.strategy1 t = some s) :
    goodResult s := by
  simp only [IsbnUtils.strategy1] at h
  obtain ⟨pat, _, h2⟩ := exists_of_findSome h
  obtain ⟨m, _, h3⟩ := exists_of_findSome h2
  by_cases h13 : ((cleanSepDot (capList t.data m.2.2 1)).length == 13 &&
      IsbnUtils.validateISBN13 (String.mk (cleanSepDot (capList t.data m.2.2 1)))) = true
  · rw [if_pos h13] at h3
    obtain rfl := Option.some.inj h3
    right
    have hl := ((Bool.and_eq_true _ _).mp h13).1
    have hv := ((Bool.and_eq_true _ _).mp h13).2
    have hlen : (cleanSepDot (capList t.data m.2.2 1)).length = 13 := by simpa using hl
    exact ⟨hlen, all_digits_of_validate13 _ hlen hv, hv⟩
  · rw [if_neg h13] at h3
    by_cases h10 : ((cleanSepDot (capList t.data m.2.2 1)).length == 10 &&
        IsbnUtils.isValidISBN10 (String.mk (cleanSepDot (capList t.data m.2.2 1)))) = true
    · rw [if_pos h10] at h3
      obtain rfl := Option.some.inj h3
      left
      have hl := ((Bool.and_eq_true _ _).mp h10).1
      exact ⟨by simpa using hl, ((Bool.and_eq_true _ _).mp h10).2⟩
    · rw [if_neg h10] at h3
      simp at h3

theorem strategy2_good {nt s : String} (h : IsbnUtils.strategy2 nt = some s) :
    goodResult s := by
  simp only [IsbnUtils.strategy2] at h
  obtain ⟨pg, _, h2⟩ := exists_of_findSome h
  obtain ⟨m, _, h3⟩ := exists_of_findSome h2
  by_cases hg : (((cleanSepDot (joinCaps nt.data m.2.2 pg.2)).filter Char.isDigit).length == 13 &&
      IsbnUtils.validateISBN13
        (String.mk ((cleanSepDot (joinCaps nt.data m.2.2 pg.2)).filter Char.isDigit))) = true
  · rw [if_pos hg] at h3
    obtain rfl := Option.some.inj h3
    right
    have hv := ((Bool.and_eq_true _ _).mp hg).2
    have hlen : ((cleanSepDot (joinCaps nt.data m.2.2 pg.2)).filter Char.isDigit).length = 13 := by
      simpa using ((Bool.and_eq_true _ _).mp hg).1
    exact ⟨hlen, all_digits_of_validate13 _ hlen hv, hv⟩
  · rw [if_neg hg] at h3
    simp at h3

theorem strategy3_good {nt s : String} (h : IsbnUtils.strategy3 nt = some s) :
    goodResult s := by
  simp only [IsbnUtils.strategy3] at h
  obtain ⟨sq, _, h2⟩ := exists_of_findSome h
  by_cases hge : (sq.filter fun c => !(isJsSpace c)).length ≥ 13
  · rw [if_pos hge] at h2
    exact window13_good h2
  · rw [if_neg hge] at h2
    simp at h2

theorem strategy4_good {t s : String} (h : IsbnUtils.strategy4 t = some s) :
    goodResult s := by
  simp only [IsbnUtils.strategy4] at h
  obtain ⟨pg, _, h2⟩ := exists_of_findSome h
  obtain ⟨m, _, h3⟩ := exists_of_findSome h2
  by_cases hg : ((((cleanSepDot (joinCaps (t.data.map jsToUpper) m.2.2 pg.2)).map jsToUpper).filter
        (fun c => c.isDigit || c == 'X')).length == 10 &&
      IsbnUtils.isValidISBN10 (String.mk
        (((cleanSepDot (joinCaps (t.data.map jsToUpper) m.2.2 pg.2)).map jsToUpper).filter
          (fun c => c.isDigit || c == 'X')))) = true
  · rw [if_pos hg] at h3
    obtain rfl := Option.some.inj h3
    left
    exact ⟨by simpa using ((Bool.and_eq_true _ _).mp hg).1, ((Bool.and_eq_true _ _).mp hg).2⟩
  · rw [if_neg hg] at h3
    simp at h3

theorem strategy5_good {t s : String} (h : IsbnUtils.strategy5 t = some s) :
    goodResult s := by
  simp only [IsbnUtils.strategy5] at h
  split at h
  next r heq =>
    obtain rfl := Option.some.inj h
    exact window13_good heq
  next heq =>
    exact window10_good h

theorem strategy6_good {nt s : String} (h : IsbnUtils.strategy6 nt = some s) :
    goodResult s := by
  simp only [IsbnUtils.strategy6] at h
  by_cases hge : (nt.data.filter Char.isDigit).length ≥ 13
  · rw [if_pos hge] at h
    exact window13_good h
  · rw [if_neg hge] at h
    simp at h

theorem extractISBN_goodResult {t s : String} (h : IsbnUtils.extractISBN t = some s) :
    goodResult s := by
  simp only [IsbnUtils.extractISBN] at h
  cases h1 : IsbnUtils.strategy1 t with
  | some r =>
    rw [h1, orElse_some_eq] at h
    obtain rfl := Option.some.inj h
    exact strategy1_good h1
  | none =>
    rw [h1, orElse_none_eq] at h
    cases h2 : IsbnUtils.strategy2 (normalizeText t) with
    | some r =>
      rw [h2, orElse_some_eq] at h
      obtain rfl := Option.some.inj h
      exact strategy2_good h2
    | none =>
      rw [h2, orElse_none_eq] at h
      cases h3 : IsbnUtils.strategy3 (normalizeText t) with
      | some r =>
        rw [h3, orElse_some_eq] at h
        obtain rfl := Option.some.inj h
        exact strategy3_good h3
      | none =>
        rw [h3, orElse_none_eq] at h
        cases h4 : IsbnUtils.strategy4 t with
        | some r =>
          rw [h4, orElse_some_eq] at h
          obtain rfl := Option.some.inj h
          exact strategy4_good h4
        | none =>
          rw [h4, orElse_none_eq] at h
          cases h5 : IsbnUtils.strategy5 t with
          | some r =>
            rw [h5, orElse_some_eq] at h
            obtain rfl := Option.some.inj h
            exact strategy5_good h5
          | none =>
            rw [h5, orElse_none_eq] at h
            exact strategy6_good h

/-! ## Claim theorems -/

/-- C1, counterexample: the claimed result invariant fails as stated. On the
input `"ISBN: 1234567890128"` the extractor returns a 13-digit string that does
not start with 978 or 979 (strategy 1 never checks the prefix), and on
`"ISBN: 1 23456789x"` it returns a 10-character string ending in a lowercase
`x`, which does not match `^\d{9}[\dX]$`. -/
theorem c1_counterexample :
    IsbnUtils.extractISBN "ISBN: 1234567890128" = some "1234567890128" ∧
    IsbnUtils.starts978or979 ("1234567890128" : String).data = false ∧
    IsbnUtils.extractISBN "ISBN: 1 23456789x" = some "123456789x" ∧
    IsbnUtils.isbn10Shape ("123456789x" : String).data = false :=
  ⟨by decide, by decide, by decide, by decide⟩

/-- C1, amended: whenever `extractISBN` returns a string `s`, then `s` is
either a 10-character string accepted by the ISBN-10 validator (so, up to a
possible lowercase final `x`, nine digits then a digit or `X`, with a valid
ISBN-10 checksum), or a string of exactly 13 digits with a valid ISBN-13
checksum; the 978/979 prefix of the original claim is not guaranteed for
candidates found by strategy 1. -/
theorem c1_result_invariant {t s : String} (h : IsbnUtils.extractISBN t = some s) :
    (s.length = 10 ∧ IsbnUtils.isValidISBN10 s = true) ∨
    (s.length = 13 ∧ s.data.all Char.isDigit = true ∧
      IsbnUtils.validateISBN13 s = true) :=
  extractISBN_goodResult h

/-- C1, witness for the amended theorem at a concrete extraction. -/
theorem c1_result_invariant_witness :
    IsbnUtils.extractISBN "ISBN: 9780134685991" = some "9780134685991" ∧
    ((("9780134685991" : String).length = 10 ∧
        IsbnUtils.isValidISBN10 "9780134685991" = true) ∨
     (("9780134685991" : String).length = 13 ∧
        ("9780134685991" : String).data.all Char.isDigit = true ∧
        IsbnUtils.validateISBN13 "9780134685991" = true)) :=
  ⟨by decide, @c1_result_invariant "ISBN: 9780134685991" "9780134685991" (by decide)⟩

/-- C2: on any string of exactly 13 digits, `validateISBN13` agrees with the
weighted-sum rule (weight 1 at even 0-based index, 3 at odd index, sum
congruent to 0 modulo 10); concretely it accepts `9780134685991` and rejects
`9780134685992`. -/
theorem c2_isbn13_checksum :
    (∀ isbn : String, isbn.length = 13 → isbn.data.all Char.isDigit = true →
      IsbnUtils.validateISBN13 isbn = (weightedSum13 isbn.data % 10 == 0)) ∧
    IsbnUtils.validateISBN13 "9780134685991" = true ∧
    IsbnUtils.validateISBN13 "9780134685992" = false := by
  refine ⟨?_, by decide, by decide⟩
  intro isbn hlen hdig
  apply validateISBN13_eq_spec
  intro i hi
  have hi2 : i < isbn.data.length := by
    have hsd : isbn.data.length = isbn.length := rfl
    omega
  refine ⟨isbn.data.get ⟨i, hi2⟩, List.get?_eq_get hi2, ?_⟩
  exact List.all_eq_true.mp hdig _ (List.get_mem _ _ _)

/-- C2, witness: the characterisation applied to the concrete valid ISBN-13. -/
theorem c2_isbn13_checksum_witness :
    ("9780134685991" : String).length = 13 ∧
    ("9780134685991" : String).data.all Char.isDigit = true ∧
    IsbnUtils.validateISBN13 "9780134685991" =
      (weightedSum13 ("9780134685991" : String).data % 10 == 0) :=
  ⟨by decide, by decide, c2_isbn13_checksum.1 "9780134685991" (by decide) (by decide)⟩

/-- C3, counterexample: the claim asserts `isValidISBN10 "013468599X" = true`,
but the code rejects it (the weighted sum is 212, congruent to 3 modulo 11;
the correct check digit for this prefix is 7, not X). -/
theorem c3_counterexample : IsbnUtils.isValidISBN10 "013468599X" = false := by decide

/-- C3, amended: `isValidISBN10` strips whitespace and hyphens and uppercases;
it returns true exactly when the cleaned string is 10 characters of shape
`^\d{9}[\dX]$` whose weighted sum (weights 10 down to 2, the last character
counting 10 for `X`) is congruent to 0 modulo 11. In particular it returns
false on `013468599X` and on `0134685990`, and true on `0134685997`. -/
theorem c3_isbn10_validator :
    (∀ code : String, IsbnUtils.isValidISBN10 code =
      (IsbnUtils.isbn10Shape (IsbnUtils.cleanForIsbn10 code) &&
        (weightedSum10 (IsbnUtils.cleanForIsbn10 code) % 11 == 0))) ∧
    IsbnUtils.isValidISBN10 "013468599X" = false ∧
    IsbnUtils.isValidISBN10 "0134685990" = false ∧
    IsbnUtils.isValidISBN10 "0134685997" = true :=
  ⟨isValidISBN10_eq_spec, by decide, by decide, by decide⟩

/-- C4: `isValidISBN` strips whitespace and hyphens, accepts a cleaned string
of length 13 exactly when it is all digits with prefix 978 or 979 and a valid
ISBN-13 checksum, delegates a cleaned string of length 10 to the ISBN-10
validator, and rejects every other length; concretely `"12345"` and
`"1234567890123"` are rejected and `"978-0-13-468599-1"` is accepted. -/
theorem c4_isValidISBN_dispatch :
    (∀ code : String,
      IsbnUtils.isValidISBN code =
        ((code.data.filter fun c => !(isJsSpace c || c == '-')).length == 13 &&
          (code.data.filter fun c => !(isJsSpace c || c == '-')).all Char.isDigit &&
          IsbnUtils.starts978or979 (code.data.filter fun c => !(isJsSpace c || c == '-')) &&
          IsbnUtils.validateISBN13
            (String.mk (code.data.filter fun c => !(isJsSpace c || c == '-'))) ||
         (code.data.filter fun c => !(isJsSpace c || c == '-')).length == 10 &&
          IsbnUtils.isValidISBN10
            (String.mk (code.data.filter fun c => !(isJsSpace c || c == '-'))))) ∧
    IsbnUtils.isValidISBN "12345" = false ∧
    IsbnUtils.isValidISBN "1234567890123" = false ∧
    IsbnUtils.isValidISBN "978-0-13-468599-1" = true := by
  refine ⟨?_, by decide, by decide, by decide⟩
  intro code
  simp only [IsbnUtils.isValidISBN]
  set cl := code.data.filter fun c => !(isJsSpace c || c == '-') with hcl
  by_cases hA : (cl.length == 13 && cl.all Char.isDigit && IsbnUtils.starts978or979 cl) = true
  · rw [if_pos hA]
    have h13 : cl.length = 13 := by
      simpa using ((Bool.and_eq_true _ _).mp ((Bool.and_eq_true _ _).mp hA).1).1
    have h10 : (cl.length == 10) = false := by simp [h13]
    rw [hA, h10]
    simp
  · have hAf : (cl.length == 13 && cl.all Char.isDigit && IsbnUtils.starts978or979 cl) = false := by
      revert hA
      cases cl.length == 13 && cl.all Char.isDigit && IsbnUtils.starts978or979 cl <;> simp
    rw [if_neg (by simp [hAf])]
    rw [hAf]
    by_cases hB : cl.length = 10
    · rw [show (cl.length == 10) = true from by simp [hB]]
      simp
    · rw [show (cl.length == 10) = false from by simp [hB]]
      simp

/-- C5: the six strategies are tried in a fixed order and the first validated
candidate wins: whenever strategy 1 yields a result, `extractISBN` returns it
without consulting later strategies; concretely, on a text with decoy 13-digit
numbers on both sides of an explicit `ISBN: 9780134685991` label, strategy 1
and hence `extractISBN` return the labelled ISBN, not a decoy. -/
theorem c5_stage_priority :
    (∀ t r : String, IsbnUtils.strategy1 t = some r →
      IsbnUtils.extractISBN t = some r) ∧
    IsbnUtils.strategy1 "1234567890123 ISBN: 9780134685991 9999999999999" =
      some "9780134685991" ∧
    IsbnUtils.extractISBN "1234567890123 ISBN: 9780134685991 9999999999999" =
      some "9780134685991" := by
  refine ⟨?_, by decide, by decide⟩
  intro t r h
  simp only [IsbnUtils.extractISBN]
  rw [h, orElse_some_eq]

/-- C5, witness: the priority statement applied to the decoy text. -/
theorem c5_stage_priority_witness :
    IsbnUtils.extractISBN "1234567890123 ISBN: 9780134685991 9999999999999" =
      some "9780134685991" :=
  c5_stage_priority.1 "1234567890123 ISBN: 9780134685991 9999999999999"
    "9780134685991" (by decide)

/-- C6: whenever the digits remaining after normalising the text and deleting
every non-digit contain a 13-character window that starts with 978 or 979 and
passes the ISBN-13 checksum, `extractISBN` returns a result (the strategy-6
fallback guarantees a match). -/
theorem c6_mangled_fallback {t : String}
    (h : hasWindow13 ((normalizeText t).data.filter Char.isDigit) = true) :
    (IsbnUtils.extractISBN t).isSome = true := by
  simp only [IsbnUtils.extractISBN]
  cases h1 : IsbnUtils.strategy1 t with
  | some r => rw [orElse_some_eq]; rfl
  | none =>
    rw [orElse_none_eq]
    cases h2 : IsbnUtils.strategy2 (normalizeText t) with
    | some r => rw [orElse_some_eq]; rfl
    | none =>
      rw [orElse_none_eq]
      cases h3 : IsbnUtils.strategy3 (normalizeText t) with
      | some r => rw [orElse_some_eq]; rfl
      | none =>
        rw [orElse_none_eq]
        cases h4 : IsbnUtils.strategy4 t with
        | some r => rw [orElse_some_eq]; rfl
        | none =>
          rw [orElse_none_eq]
          cases h5 : IsbnUtils.strategy5 t with
          | some r => rw [orElse_some_eq]; rfl
          | none =>
            rw [orElse_none_eq]
            unfold hasWindow13 at h
            have hge : ((normalizeText t).data.filter Char.isDigit).length ≥ 13 := by
              obtain ⟨i, hir, _⟩ := List.any_eq_true.mp h
              have := List.mem_range.mp hir
              omega
            simp only [IsbnUtils.strategy6]
            rw [if_pos hge]
            exact findSome_if_isSome _ _ _ h

/-- C6, witness: a heavily punctuated text whose normalised digit stream
contains the valid window `9780134685991`. -/
theorem c6_mangled_fallback_witness :
    hasWindow13 ((normalizeText "9!7@8#0134685991").data.filter Char.isDigit) = true ∧
    (IsbnUtils.extractISBN "9!7@8#0134685991").isSome = true :=
  ⟨by decide, c6_mangled_fallback (by decide)⟩

/-- C7: when no strategy yields a validated candidate the extractor returns
`none`; concretely `extractISBN "no numbers here at all" = none`. -/
theorem c7_no_match_null : IsbnUtils.extractISBN "no numbers here at all" = none := by
  decide

/-- C8: the four core functions are total: on every input string the extractor
returns an optional string and the validators return a boolean. -/
theorem c8_totality : ∀ t : String,
    ((IsbnUtils.extractISBN t).isSome = true ∨ IsbnUtils.extractISBN t = none) ∧
    (IsbnUtils.isValidISBN t = true ∨ IsbnUtils.isValidISBN t = false) ∧
    (IsbnUtils.isValidISBN10 t = true ∨ IsbnUtils.isValidISBN10 t = false) ∧
    (IsbnUtils.validateISBN13 t = true ∨ IsbnUtils.validateISBN13 t = false) := by
  intro t
  refine ⟨?_, ?_, ?_, ?_⟩
  · cases IsbnUtils.extractISBN t
    · exact Or.inr rfl
    · exact Or.inl rfl
  · cases IsbnUtils.isValidISBN t
    · exact Or.inr rfl
    · exact Or.inl rfl
  · cases IsbnUtils.isValidISBN10 t
    · exact Or.inr rfl
    · exact Or.inl rfl
  · cases IsbnUtils.validateISBN13 t
    · exact Or.inr rfl
    · exact Or.inl rfl

/-- C9: the extractor and validators are deterministic pure functions: two
invocations on the same string give the same result. -/
theorem c9_determinism : ∀ t1 t2 : String, t1 = t2 →
    IsbnUtils.extractISBN t1 = IsbnUtils.extractISBN t2 ∧
    IsbnUtils.isValidISBN t1 = IsbnUtils.isValidISBN t2 ∧
    IsbnUtils.isValidISBN10 t1 = IsbnUtils.isValidISBN10 t2 ∧
    IsbnUtils.validateISBN13 t1 = IsbnUtils.validateISBN13 t2 := by
  intro t1 t2 h
  subst h
  exact ⟨rfl, rfl, rfl, rfl⟩

/-- C9, witness: determinism applied at a concrete input. -/
theorem c9_determinism_witness :
    IsbnUtils.extractISBN "ISBN: 9780134685991" =
      IsbnUtils.extractISBN "ISBN: 9780134685991" ∧
    IsbnUtils.isValidISBN "ISBN: 9780134685991" =
      IsbnUtils.isValidISBN "ISBN: 9780134685991" ∧
    IsbnUtils.isValidISBN10 "ISBN: 9780134685991" =
      IsbnUtils.isValidISBN10 "ISBN: 9780134685991" ∧
    IsbnUtils.validateISBN13 "ISBN: 9780134685991" =
      IsbnUtils.validateISBN13 "ISBN: 9780134685991" :=
  c9_determinism _ _ rfl

/-- C10: the exported functions of `src/js/isbn-utils.js` and the duplicated
class methods of `src/unnamed/part_001` are extensionally equal on every
input. -/
theorem c10_duplicate_equivalence : ∀ s : String,
    IsbnUtils.extractISBN s = ScannerApp.extractISBN s ∧
    IsbnUtils.isValidISBN s = ScannerApp.isValidISBN s ∧
    IsbnUtils.validateISBN13 s = ScannerApp.validateISBN13 s ∧
    IsbnUtils.isValidISBN10 s = ScannerApp.isValidISBN10 s :=
  fun _ => ⟨rfl, rfl, rfl, rfl⟩

end ISBN
